import Mathlib

/-!
Verification of the VigiSaúde Brasil dashboard core: the map
layer-composition and data-aggregation pipeline.

The development shallowly embeds the relevant JavaScript modules:

* `src/services/api.js` — memoized fetchers, national overview with
  fallback years, bulk municipality alerts (`cachedFetch`,
  `fetchNationalOverview`, `fetchBulkMunicipioAlerts`);
* `src/components/cards.js` — national aggregation
  (`renderCards` / `updateNationalSummary`);
* `src/components/map.js` — the map layer state machine
  (`setMapLayer`, `setMapDisease`, `setMapHeatmap`,
  `setMapEsgotoRelevo`), sanitation color/opacity ramps, heatmap
  normalization;
* `src/components/charts.js` — `weekToMonth` and the monthly bucketing
  of `renderCorrelationChart`.

JavaScript numbers are modelled as `Nat` / `Int` / `ℚ`; nullable fields
as `Option`; fallible fetches as `Except`; the single-threaded
event-loop interleaving of `cachedFetch` as an explicit action schedule.
-/

namespace VSB

/-- One InfoDengue alertcity record (a `LocationSeriesPoint`): the fields of
the upstream JSON row that the dashboard reads.  `SE` is the
year-and-week encoded epidemiological week (`YYYYWW`), `casos` the weekly
case count, `Rt` the reproduction number, `nivel` the 4-tier alert level,
`tempmed` / `umidmed` the climate readings.  Nullable JSON fields are
`Option`s. -/
structure SeriesPoint where
  SE : Nat
  casos : Option Nat
  Rt : Option ℚ
  p_inc100k : Option ℚ
  notif_accum_year : Option Nat
  nivel : Nat
  tempmed : Option ℚ
  umidmed : Option ℚ
deriving DecidableEq, Repr

/-- One tracked capital city from the `capitals` table of
`fetchNationalOverview` in `src/services/api.js`. -/
structure Capital where
  name : String
  geocode : Nat
  uf : String
deriving DecidableEq, Repr

/-- A per-location summary as assembled by `fetchForYear` in
`src/services/api.js`: the capital's identity, its fetched series
(`data`), the last point (`latest`, `none` when the series is empty) and
the year the data was actually fetched for (`dataYear`). -/
structure Summary where
  name : String
  geocode : Nat
  uf : String
  data : List SeriesPoint
  latest : Option SeriesPoint
  dataYear : Int
deriving DecidableEq, Repr

/-! ## Aggregation engine (`src/components/cards.js`)

`renderCards` and `updateNationalSummary` run the same accumulation loop
over the national per-capital data: total cases, count of cities at
alert level ≥ 3, running Rt sum and count, and (in `renderCards`) the
maximum alert level starting from 1.  The loop guards the Rt
accumulation with the JavaScript truthiness test `if (cap.latest.Rt)`,
which skips `null`, `undefined` **and `0`**. -/

/-- Accumulator of the `nationalData.forEach` loops in
`src/components/cards.js` (`renderCards` lines 34–53 and
`updateNationalSummary` lines 109–125 combined; both loops traverse the
same list). -/
structure AggAcc where
  totalCases : Nat
  alertCities : Nat
  rtSum : ℚ
  rtCount : Nat
  maxLevel : Nat
deriving DecidableEq, Repr

/-- One iteration of the `forEach` aggregation loop of
`src/components/cards.js`: skip a capital with `latest` null; add
`notif_accum_year || 0` to the case total; count `nivel >= 3` capitals;
add `Rt` to the running sum and bump the divisor only when `Rt` is
truthy (present and nonzero); raise `maxLevel` when `nivel` exceeds it. -/
def aggStep (acc : AggAcc) (cap : Summary) : AggAcc :=
  match cap.latest with
  | none => acc
  | some d =>
      let a1 := { acc with totalCases := acc.totalCases + d.notif_accum_year.getD 0 }
      let a2 := if 3 ≤ d.nivel then { a1 with alertCities := a1.alertCities + 1 } else a1
      let a3 := match d.Rt with
        | some r => if r ≠ 0 then { a2 with rtSum := a2.rtSum + r, rtCount := a2.rtCount + 1 } else a2
        | none => a2
      if a3.maxLevel < d.nivel then { a3 with maxLevel := d.nivel } else a3

/-- The national summary statistics shown by the dashboard
(`NationalSummaryStats` of the specification). -/
structure NationalStats where
  totalCases : Nat
  meanRt : ℚ
  alertCityCount : Nat
  maxAlertLevel : Nat
deriving DecidableEq, Repr

/-- National aggregation of `src/components/cards.js`: fold the
`forEach` loop over the list of summaries starting from
`totalCases = 0`, `alertCities = 0`, `avgRt = 0`, `rtCount = 0`,
`maxLevel = 1`, then divide the Rt sum by the count when the count is
positive (`if (rtCount > 0) avgRt /= rtCount`), leaving `0` otherwise. -/
def aggregateNational (l : List Summary) : NationalStats :=
  let acc := l.foldl aggStep ⟨0, 0, 0, 0, 1⟩
  { totalCases := acc.totalCases
    meanRt := if 0 < acc.rtCount then acc.rtSum / acc.rtCount else 0
    alertCityCount := acc.alertCities
    maxAlertLevel := acc.maxLevel }

/-- Case contribution of one summary: `latest.notif_accum_year || 0`,
`0` when `latest` is null. -/
def capCases (s : Summary) : Nat :=
  match s.latest with
  | none => 0
  | some d => d.notif_accum_year.getD 0

/-- Whether a summary counts as an alert city (`latest.nivel >= 3`). -/
def capAlert (s : Summary) : Bool :=
  match s.latest with
  | none => false
  | some d => 3 ≤ d.nivel

/-- Whether a summary's Rt passes the JavaScript truthiness guard
`if (cap.latest.Rt)`: present and nonzero. -/
def capRtTruthy (s : Summary) : Bool :=
  match s.latest with
  | none => false
  | some d =>
      match d.Rt with
      | none => false
      | some r => r ≠ 0

/-- Rt contribution of one summary to the running sum: the Rt value when
truthy, `0` otherwise. -/
def capRtVal (s : Summary) : ℚ :=
  match s.latest with
  | none => 0
  | some d =>
      match d.Rt with
      | none => 0
      | some r => if r ≠ 0 then r else 0

/-- Alert-level contribution of one summary to the running maximum: its
`latest.nivel`, or `0` (neutral for `max`) when `latest` is null. -/
def capNivel (s : Summary) : Nat :=
  match s.latest with
  | none => 0
  | some d => d.nivel

/-- Modelled from the spec: the arithmetic mean of `latest.reproductionNumber`
over exactly the summaries where that field is present (non-null), `0`
when no value is present.  This is the behaviour claimed by the
specification for `meanReproductionNumber` (a present `0` counts toward
both the sum and the divisor); it is compared against the code's
`aggregateNational`. -/
def meanRtSpec (l : List Summary) : ℚ :=
  let vals := l.filterMap (fun s => s.latest.bind (fun d => d.Rt))
  if vals.length = 0 then 0 else vals.sum / vals.length

/-- One step of the aggregation loop, expressed through the per-summary
contribution functions. -/
theorem aggStep_eq (acc : AggAcc) (s : Summary) :
    aggStep acc s =
      { totalCases := acc.totalCases + capCases s
        alertCities := acc.alertCities + (if capAlert s then 1 else 0)
        rtSum := acc.rtSum + capRtVal s
        rtCount := acc.rtCount + (if capRtTruthy s then 1 else 0)
        maxLevel := max acc.maxLevel (capNivel s) } := by
  have hmax : ∀ a b : Nat, (if a < b then b else a) = max a b := by
    intro a b; split <;> omega
  obtain ⟨nm, gc, uf, dat, lat, dy⟩ := s
  cases lat with
  | none => simp [aggStep, capCases, capAlert, capRtVal, capRtTruthy, capNivel]
  | some d =>
      obtain ⟨dSE, dcasos, dRt, dpinc, dnotif, dnivel, dtemp, dumid⟩ := d
      cases dRt with
      | none =>
          by_cases h3 : 3 ≤ dnivel <;>
            simp [aggStep, capCases, capAlert, capRtVal, capRtTruthy, capNivel, h3, hmax] <;>
            split <;> simp_all <;> omega
      | some r =>
          by_cases h3 : 3 ≤ dnivel <;> by_cases hr0 : r = 0 <;>
            simp [aggStep, capCases, capAlert, capRtVal, capRtTruthy, capNivel, h3, hr0, hmax] <;>
            split <;> simp_all <;> omega

/-- Closed form of the aggregation fold, for any starting accumulator. -/
theorem aggFoldl_closed (l : List Summary) : ∀ acc : AggAcc,
    l.foldl aggStep acc =
      { totalCases := acc.totalCases + (l.map capCases).sum
        alertCities := acc.alertCities + (l.filter capAlert).length
        rtSum := acc.rtSum + (l.map capRtVal).sum
        rtCount := acc.rtCount + (l.filter capRtTruthy).length
        maxLevel := max acc.maxLevel ((l.map capNivel).foldr max 0) } := by
  induction l with
  | nil => intro acc; simp
  | cons s t ih =>
      intro acc
      rw [List.foldl_cons, ih, aggStep_eq]
      simp only [List.map_cons, List.sum_cons, List.filter_cons, List.foldr_cons]
      by_cases ha : capAlert s <;> by_cases hrt : capRtTruthy s <;>
        simp [ha, hrt, Nat.add_assoc, Nat.add_comm, Nat.add_left_comm,
          add_assoc, add_comm, add_left_comm, Nat.max_assoc, List.length_cons]

/-- Closed form of `aggregateNational`. -/
theorem aggregateNational_eq (l : List Summary) :
    aggregateNational l =
      { totalCases := (l.map capCases).sum
        meanRt := if 0 < (l.filter capRtTruthy).length
            then (l.map capRtVal).sum / ((l.filter capRtTruthy).length : ℚ) else 0
        alertCityCount := (l.filter capAlert).length
        maxAlertLevel := max 1 ((l.map capNivel).foldr max 0) } := by
  unfold aggregateNational
  rw [aggFoldl_closed]
  simp

/-- The list of Rt values that pass the truthiness guard (present and
nonzero), in input order. -/
def truthyRts (l : List Summary) : List ℚ :=
  l.filterMap (fun s =>
    match s.latest with
    | none => none
    | some d =>
        match d.Rt with
        | none => none
        | some r => if r = 0 then none else some r)

theorem truthyRts_sum (l : List Summary) : (truthyRts l).sum = (l.map capRtVal).sum := by
  induction l with
  | nil => rfl
  | cons s t ih =>
      unfold truthyRts at ih ⊢
      cases hl : s.latest with
      | none => simp [List.filterMap_cons, hl, ih, capRtVal]
      | some d =>
          cases hr : d.Rt with
          | none => simp [List.filterMap_cons, hl, hr, ih, capRtVal]
          | some r =>
              by_cases hr0 : r = 0 <;>
                simp [List.filterMap_cons, hl, hr, hr0, ih, capRtVal]

theorem truthyRts_length (l : List Summary) :
    (truthyRts l).length = (l.filter capRtTruthy).length := by
  induction l with
  | nil => rfl
  | cons s t ih =>
      unfold truthyRts at ih ⊢
      cases hl : s.latest with
      | none => simp [List.filterMap_cons, List.filter_cons, hl, ih, capRtTruthy]
      | some d =>
          cases hr : d.Rt with
          | none => simp [List.filterMap_cons, List.filter_cons, hl, hr, ih, capRtTruthy]
          | some r =>
              by_cases hr0 : r = 0 <;>
                simp [List.filterMap_cons, List.filter_cons, hl, hr, hr0, ih, capRtTruthy]

/-- A summary whose latest point has `Rt = 2`. -/
def cexRtA : Summary :=
  { name := "A", geocode := 1, uf := "SP", data := [],
    latest := some ⟨202501, some 0, some 2, none, some 0, 1, none, none⟩, dataYear := 2025 }

/-- A summary whose latest point has `Rt = 0` — present and non-null,
but falsy in JavaScript. -/
def cexRtB : Summary :=
  { name := "B", geocode := 2, uf := "RJ", data := [],
    latest := some ⟨202501, some 0, some 0, none, some 0, 1, none, none⟩, dataYear := 2025 }

/-- C2, counterexample.  The claim says a present `reproductionNumber` of
`0` counts toward both the sum and the divisor of the mean.  On the input
`[Rt = 2, Rt = 0]` the code's guard `if (cap.latest.Rt)` skips the zero,
so the code computes mean `2`, while the claimed mean over present
values is `(2 + 0) / 2 = 1`. -/
theorem C2_rt_zero_counterexample :
    (aggregateNational [cexRtA, cexRtB]).meanRt = 2 ∧
    meanRtSpec [cexRtA, cexRtB] = 1 ∧ (2 : ℚ) ≠ 1 := by
  refine ⟨?_, ?_, by norm_num⟩
  · simp [aggregateNational, aggStep, cexRtA, cexRtB]
  · simp [meanRtSpec, cexRtA, cexRtB]

/-- C2, amended.  `meanReproductionNumber` is the arithmetic mean of
`latest.reproductionNumber` over exactly the summaries where that field
is present and **nonzero** (the JavaScript truthiness guard excludes a
present `0` from both the sum and the divisor), `0` when no such value
exists; `totalCases` sums `latest.notif_accum_year` treating missing as
`0`; `maxAlertLevel` is the maximum `latest.nivel` defaulting to `1`;
the empty input and the all-null-latest input both yield exactly
`{totalCases := 0, meanReproductionNumber := 0, alertCityCount := 0,
maxAlertLevel := 1}`. -/
theorem C2_aggregate_amended :
    (∀ l : List Summary,
      (aggregateNational l).totalCases = (l.map capCases).sum ∧
      (aggregateNational l).meanRt =
        (if truthyRts l = [] then 0
         else (truthyRts l).sum / ((truthyRts l).length : ℚ)) ∧
      (aggregateNational l).maxAlertLevel = max 1 ((l.map capNivel).foldr max 0)) ∧
    aggregateNational [] = ⟨0, 0, 0, 1⟩ ∧
    (∀ l : List Summary, (∀ s ∈ l, s.latest = none) →
      aggregateNational l = ⟨0, 0, 0, 1⟩) := by
  have hnull : ∀ l : List Summary, (∀ s ∈ l, s.latest = none) →
      (l.map capCases).sum = 0 ∧ l.filter capAlert = [] ∧
      (l.map capRtVal).sum = 0 ∧ l.filter capRtTruthy = [] ∧
      (l.map capNivel).foldr max 0 = 0 := by
    intro l h
    induction l with
    | nil => simp
    | cons s t ih =>
        have hs : s.latest = none := h s (by simp)
        have ht := ih (fun x hx => h x (by simp [hx]))
        simp [List.filter_cons, capCases, capAlert, capRtVal, capRtTruthy, capNivel, hs,
          ht.1, ht.2.1, ht.2.2.1, ht.2.2.2.1, ht.2.2.2.2]
  refine ⟨fun l => ?_, by decide, fun l h => ?_⟩
  · rw [aggregateNational_eq]
    refine ⟨rfl, ?_, rfl⟩
    rw [← truthyRts_length, truthyRts_sum]
    rcases Nat.eq_zero_or_pos (truthyRts l).length with h0 | hpos
    · simp [List.length_eq_zero.mp h0]
    · have hne : truthyRts l ≠ [] := by
        intro he; rw [he] at hpos; simp at hpos
      simp [hne, hpos]
  · have := hnull l h
    rw [aggregateNational_eq]
    simp [this.1, this.2.1, this.2.2.1, this.2.2.2.1, this.2.2.2.2]

/-- A summary with a null `latest`, for the all-null edge case. -/
def cexNullC : Summary :=
  { name := "C", geocode := 3, uf := "MG", data := [], latest := none, dataYear := 2025 }

/-- C2 witness: the amended aggregation theorem applied to concrete
inputs, including the all-null-latest edge case. -/
theorem C2_aggregate_amended_witness :
    (aggregateNational [cexRtA, cexRtB]).totalCases =
      ([cexRtA, cexRtB].map capCases).sum ∧
    aggregateNational [cexNullC] = ⟨0, 0, 0, 1⟩ :=
  ⟨(C2_aggregate_amended.1 [cexRtA, cexRtB]).1,
   C2_aggregate_amended.2.2 [cexNullC] (by
     intro s hs
     rw [List.mem_singleton] at hs
     subst hs
     rfl)⟩

/-- Permutation invariance of `foldr max 0` over natural numbers. -/
theorem foldr_max_perm {l₁ l₂ : List Nat} (h : l₁.Perm l₂) :
    l₁.foldr max 0 = l₂.foldr max 0 := by
  induction h with
  | nil => rfl
  | cons x _ ih => simp [ih]
  | swap x y t => simp [Nat.max_left_comm]
  | trans _ _ ih₁ ih₂ => exact ih₁.trans ih₂

/-- C8.  The national aggregation is order-independent: any permutation
of the input summaries yields the same `NationalStats`, and `totalCases`
is the sum of the per-summary contributions
`latest.notif_accum_year || 0` (0 for a null `latest`). -/
theorem C8_order_independence :
    (∀ l₁ l₂ : List Summary, l₁.Perm l₂ → aggregateNational l₁ = aggregateNational l₂) ∧
    (∀ l : List Summary, (aggregateNational l).totalCases = (l.map capCases).sum) := by
  constructor
  · intro l₁ l₂ h
    rw [aggregateNational_eq, aggregateNational_eq]
    have hsum : ((l₁.map capCases).sum : Nat) = (l₂.map capCases).sum :=
      (h.map capCases).sum_eq
    have hrt : ((l₁.map capRtVal).sum : ℚ) = (l₂.map capRtVal).sum :=
      (h.map capRtVal).sum_eq
    have halert : (l₁.filter capAlert).length = (l₂.filter capAlert).length :=
      (h.filter capAlert).length_eq
    have hcnt : (l₁.filter capRtTruthy).length = (l₂.filter capRtTruthy).length :=
      (h.filter capRtTruthy).length_eq
    have hmax : (l₁.map capNivel).foldr max 0 = (l₂.map capNivel).foldr max 0 :=
      foldr_max_perm (h.map capNivel)
    rw [hsum, hrt, halert, hcnt, hmax]
  · intro l
    rw [aggregateNational_eq]

/-- The pair `[cexRtA, cexRtB]` permuted, for the C8 witness. -/
theorem C8_order_independence_witness :
    aggregateNational [cexRtA, cexRtB] = aggregateNational [cexRtB, cexRtA] ∧
    (aggregateNational [cexRtA, cexRtB]).totalCases =
      ([cexRtA, cexRtB].map capCases).sum :=
  ⟨C8_order_independence.1 [cexRtA, cexRtB] [cexRtB, cexRtA] (by decide),
   C8_order_independence.2 [cexRtA, cexRtB]⟩

/-! ## Map layer state machine (`src/components/map.js`)

The module-level mutable state of `map.js` relevant to layer
composition: the active layer, the active disease, whether the
state-level choropleth (`geoLayer`), the heatmap SVG overlay
(`heatmapSvgOverlay`) and the relief marker group (`esgotoRelevoLayer`)
are currently on the map, the keys of `loadedMunicipioLayers` and of
`municipioAlertCache`, and whether `allDiseaseDataForHeatmap` is
nonempty.  Rendered artifacts are modelled by their presence. -/

/-- The five values of `currentMapLayer` in `src/components/map.js`
(the spec's `disease`, `heatmap`, `sewageCollection`, `sewageTreatment`,
`sewageRelief`). -/
inductive MapLayer
  | disease
  | heatmap
  | coletaEsgoto
  | tratamentoEsgoto
  | esgotoRelevo
deriving DecidableEq, Repr

/-- The module-level map state of `src/components/map.js`. -/
structure MapState where
  currentMapLayer : MapLayer
  currentDisease : String
  geoLayer : Bool
  heatmapSvgOverlay : Bool
  esgotoRelevoLayer : Bool
  loadedMunicipioLayers : List Nat
  municipioAlertCache : List Nat
  hasHeatData : Bool
deriving DecidableEq, Repr

/-- `removeMunicipioLayers` (map.js lines 200–207): removes every
rendered municipality layer from the map and deletes it from
`loadedMunicipioLayers`; it does not touch `municipioAlertCache`. -/
def removeMunicipioLayers (s : MapState) : MapState :=
  { s with loadedMunicipioLayers := [] }

/-- `clearHeatLayers` (map.js lines 248–253): removes the heatmap SVG
overlay if present. -/
def clearHeatLayers (s : MapState) : MapState :=
  { s with heatmapSvgOverlay := false }

/-- `clearEsgotoRelevoLayer` (map.js lines 413–418): removes the relief
marker group if present. -/
def clearEsgotoRelevoLayer (s : MapState) : MapState :=
  { s with esgotoRelevoLayer := false }

/-- `setMapHeatmap(allData)` (map.js lines 259–397): store the heatmap
data, clear the previous overlay, and add a freshly built SVG overlay to
the map.  `d` records whether the passed data is nonempty. -/
def setMapHeatmap (d : Bool) (s : MapState) : MapState :=
  let s := { s with hasHeatData := d }
  let s := clearHeatLayers s
  { s with heatmapSvgOverlay := true }

/-- `setMapEsgotoRelevo()` (map.js lines 420–547): clear the previous
relief group and the heatmap overlay, then build and add the marker
group. -/
def setMapEsgotoRelevo (s : MapState) : MapState :=
  let s := clearEsgotoRelevoLayer s
  let s := clearHeatLayers s
  { s with esgotoRelevoLayer := true }

/-- `loadGeoJSON` (map.js lines 625–762), success path: replace the
state-level choropleth, then re-render the heatmap overlay or the relief
group on top when the current layer requires it (lines 750–754). -/
def loadGeoJSON (s : MapState) : MapState :=
  let s := { s with geoLayer := true }
  if s.currentMapLayer = MapLayer.heatmap ∧ s.hasHeatData then
    setMapHeatmap s.hasHeatData s
  else if s.currentMapLayer = MapLayer.esgotoRelevo then
    setMapEsgotoRelevo s
  else s

/-- `setMapLayer(layer)` (map.js lines 550–572): record the new layer,
always remove municipality layers, clear the heatmap overlay unless
switching to `heatmap`, clear the relief group unless switching to
`esgotoRelevo`, then dispatch to the new layer's build routine
(`setMapHeatmap` only when heatmap data is already present; the
choropleth branch reloads the GeoJSON only when `geoLayer` exists). -/
def setMapLayer (l : MapLayer) (s : MapState) : MapState :=
  let s := { s with currentMapLayer := l }
  let s := removeMunicipioLayers s
  let s := if l ≠ MapLayer.heatmap then clearHeatLayers s else s
  let s := if l ≠ MapLayer.esgotoRelevo then clearEsgotoRelevoLayer s else s
  match l with
  | MapLayer.heatmap => if s.hasHeatData then setMapHeatmap s.hasHeatData s else s
  | MapLayer.esgotoRelevo => setMapEsgotoRelevo s
  | _ => if s.geoLayer then loadGeoJSON s else s

/-- `setMapDisease(disease)` (map.js lines 209–221): record the new
disease and, for every state with a rendered municipality layer, remove
the layer and delete both its `loadedMunicipioLayers` entry and its
`municipioAlertCache` entry.  (The subsequent zoom-triggered reload is a
separate asynchronous step and not part of the eviction.) -/
def setMapDisease (d : String) (s : MapState) : MapState :=
  { s with
    currentDisease := d
    loadedMunicipioLayers := []
    municipioAlertCache :=
      s.municipioAlertCache.filter (fun u => !(s.loadedMunicipioLayers.contains u)) }

/-- C1.  Layer transitions through `setMapLayer` are mutually exclusive:
every call tears down the municipality layers unconditionally, the
heatmap overlay unless the target is `heatmap`, and the relief group
unless the target is `esgotoRelevo`, so after any transition at most the
target layer's artifact is present; and the specific sequence
`disease → heatmap → esgotoRelevo → disease` ends with exactly the
state-level choropleth active — no heatmap or relief artifacts remain. -/
theorem C1_layer_mutual_exclusion :
    (∀ (s : MapState) (l : MapLayer),
      (setMapLayer l s).loadedMunicipioLayers = [] ∧
      ((setMapLayer l s).heatmapSvgOverlay = true → l = MapLayer.heatmap) ∧
      ((setMapLayer l s).esgotoRelevoLayer = true → l = MapLayer.esgotoRelevo) ∧
      ¬((setMapLayer l s).heatmapSvgOverlay = true ∧
        (setMapLayer l s).esgotoRelevoLayer = true)) ∧
    (∀ s : MapState, s.currentMapLayer = MapLayer.disease → s.geoLayer = true →
      (setMapLayer MapLayer.disease
        (setMapLayer MapLayer.esgotoRelevo
          (setMapLayer MapLayer.heatmap s))).heatmapSvgOverlay = false ∧
      (setMapLayer MapLayer.disease
        (setMapLayer MapLayer.esgotoRelevo
          (setMapLayer MapLayer.heatmap s))).esgotoRelevoLayer = false ∧
      (setMapLayer MapLayer.disease
        (setMapLayer MapLayer.esgotoRelevo
          (setMapLayer MapLayer.heatmap s))).loadedMunicipioLayers = [] ∧
      (setMapLayer MapLayer.disease
        (setMapLayer MapLayer.esgotoRelevo
          (setMapLayer MapLayer.heatmap s))).geoLayer = true) := by
  constructor
  · intro s l
    cases l <;>
      simp [setMapLayer, removeMunicipioLayers, clearHeatLayers, clearEsgotoRelevoLayer,
        setMapHeatmap, setMapEsgotoRelevo, loadGeoJSON] <;>
      split <;>
      simp_all [setMapHeatmap, loadGeoJSON, setMapEsgotoRelevo, clearHeatLayers]
  · intro s _ hgeo
    simp [setMapLayer, removeMunicipioLayers, clearHeatLayers, clearEsgotoRelevoLayer,
      setMapHeatmap, setMapEsgotoRelevo, loadGeoJSON, hgeo]
    split <;> simp_all [setMapHeatmap, loadGeoJSON, setMapEsgotoRelevo, clearHeatLayers, hgeo]

/-- Concrete initial state for the C1 witness: disease layer active,
choropleth loaded, heatmap data available, one municipality layer and
alert-cache entry present. -/
def mapState0 : MapState :=
  { currentMapLayer := MapLayer.disease
    currentDisease := "dengue"
    geoLayer := true
    heatmapSvgOverlay := false
    esgotoRelevoLayer := false
    loadedMunicipioLayers := [11]
    municipioAlertCache := [11]
    hasHeatData := true }

/-- C1 witness: the layer-transition theorem applied to `mapState0`. -/
theorem C1_layer_mutual_exclusion_witness :
    (setMapLayer MapLayer.disease
      (setMapLayer MapLayer.esgotoRelevo
        (setMapLayer MapLayer.heatmap mapState0))).heatmapSvgOverlay = false ∧
    (setMapLayer MapLayer.disease
      (setMapLayer MapLayer.esgotoRelevo
        (setMapLayer MapLayer.heatmap mapState0))).esgotoRelevoLayer = false ∧
    (setMapLayer MapLayer.disease
      (setMapLayer MapLayer.esgotoRelevo
        (setMapLayer MapLayer.heatmap mapState0))).loadedMunicipioLayers = [] ∧
    (setMapLayer MapLayer.disease
      (setMapLayer MapLayer.esgotoRelevo
        (setMapLayer MapLayer.heatmap mapState0))).geoLayer = true :=
  C1_layer_mutual_exclusion.2 mapState0 (by decide) (by decide)

/-- C6, counterexample.  The claim says the per-state alert lookup is
evicted whenever the map layer switches away from the disease-choropleth
mode.  Starting from `mapState0` (one municipality layer and one alert
cache entry for state 11, disease layer active), switching to the
heatmap layer leaves the alert cache entry in place:
`removeMunicipioLayers` deletes only the rendered layers. -/
theorem C6_alert_cache_counterexample :
    (setMapLayer MapLayer.heatmap mapState0).municipioAlertCache = [11] ∧
    ([11] : List Nat) ≠ [] := by
  refine ⟨by decide, by decide⟩

/-- C6, amended.  Switching the active disease evicts, for every state
with a currently rendered municipality layer, both the layer and its
alert-cache entry; switching the map layer destroys the rendered
municipality layers but retains every `municipioAlertCache` entry. -/
theorem C6_eviction_amended :
    (∀ (s : MapState) (d : String),
      (setMapDisease d s).loadedMunicipioLayers = [] ∧
      (setMapDisease d s).municipioAlertCache =
        s.municipioAlertCache.filter (fun u => !(s.loadedMunicipioLayers.contains u))) ∧
    (∀ (s : MapState) (l : MapLayer),
      (setMapLayer l s).loadedMunicipioLayers = [] ∧
      (setMapLayer l s).municipioAlertCache = s.municipioAlertCache) := by
  constructor
  · intro s d
    exact ⟨rfl, rfl⟩
  · intro s l
    cases l <;>
      simp [setMapLayer, removeMunicipioLayers, clearHeatLayers, clearEsgotoRelevoLayer,
        setMapHeatmap, setMapEsgotoRelevo, loadGeoJSON] <;>
      split <;>
      simp_all [setMapHeatmap, loadGeoJSON, setMapEsgotoRelevo, clearHeatLayers]

/-! ## Sanitation color and opacity ramps (`src/components/map.js`) -/

/-- `getSanitationColor(percent)` (map.js lines 224–230): 5-bucket
threshold ramp with edges ≥ 80, ≥ 60, ≥ 40, ≥ 20, else. -/
def getSanitationColor (percent : ℚ) : String :=
  if 80 ≤ percent then "#06b6d4"
  else if 60 ≤ percent then "#22d3ee"
  else if 40 ≤ percent then "#67e8f9"
  else if 20 ≤ percent then "#f59e0b"
  else "#ef4444"

/-- `getSanitationOpacity(percent)` (map.js lines 232–234):
`0.35 + (percent / 100) * 0.4`. -/
def getSanitationOpacity (percent : ℚ) : ℚ :=
  35 / 100 + (percent / 100) * (40 / 100)

/-- C9, counterexample.  The claim says an input of 100% is fully
opaque; the code's linear ramp gives `0.35 + 1 * 0.4 = 0.75` at 100%,
not full opacity `1`. -/
theorem C9_opacity_counterexample :
    getSanitationOpacity 100 = 3 / 4 ∧ (3 / 4 : ℚ) ≠ 1 := by
  constructor
  · norm_num [getSanitationOpacity]
  · norm_num

/-- C9, amended.  The collection/treatment choropleth color is the
5-bucket threshold ramp with edges ≥ 80, ≥ 60, ≥ 40, ≥ 20, else; the
fill opacity is the linear function `0.35 + (p/100) * 0.4`, monotone in
the percentage, with floor `0.35 > 0` at 0% (still faintly visible) and
ceiling `0.75` at 100% — the maximum of the fixed range, not full
opacity. -/
theorem C9_sanitation_amended :
    (∀ p : ℚ,
      (80 ≤ p → getSanitationColor p = "#06b6d4") ∧
      (60 ≤ p → p < 80 → getSanitationColor p = "#22d3ee") ∧
      (40 ≤ p → p < 60 → getSanitationColor p = "#67e8f9") ∧
      (20 ≤ p → p < 40 → getSanitationColor p = "#f59e0b") ∧
      (p < 20 → getSanitationColor p = "#ef4444")) ∧
    (∀ p : ℚ, getSanitationOpacity p = 7 / 20 + p * (1 / 250)) ∧
    (∀ p q : ℚ, p ≤ q → getSanitationOpacity p ≤ getSanitationOpacity q) ∧
    getSanitationOpacity 0 = 7 / 20 ∧ (0 : ℚ) < 7 / 20 ∧
    getSanitationOpacity 100 = 3 / 4 ∧
    (∀ p : ℚ, 0 ≤ p → p ≤ 100 →
      7 / 20 ≤ getSanitationOpacity p ∧ getSanitationOpacity p ≤ 3 / 4) := by
  refine ⟨fun p => ⟨?_, ?_, ?_, ?_, ?_⟩, fun p => ?_, fun p q h => ?_, ?_, ?_, ?_,
    fun p h0 h100 => ⟨?_, ?_⟩⟩
  · intro h; rw [getSanitationColor, if_pos h]
  · intro h1 h2
    rw [getSanitationColor, if_neg (by linarith), if_pos h1]
  · intro h1 h2
    rw [getSanitationColor, if_neg (by linarith), if_neg (by linarith), if_pos h1]
  · intro h1 h2
    rw [getSanitationColor, if_neg (by linarith), if_neg (by linarith),
      if_neg (by linarith), if_pos h1]
  · intro h1
    rw [getSanitationColor, if_neg (by linarith), if_neg (by linarith),
      if_neg (by linarith), if_neg (by linarith)]
  · rw [getSanitationOpacity]; ring
  · rw [getSanitationOpacity, getSanitationOpacity]; linarith
  · norm_num [getSanitationOpacity]
  · norm_num
  · norm_num [getSanitationOpacity]
  · rw [getSanitationOpacity]; linarith
  · rw [getSanitationOpacity]; linarith

/-- C9 witness: the amended ramp theorem applied at concrete inputs. -/
theorem C9_sanitation_amended_witness :
    getSanitationColor 90 = "#06b6d4" ∧
    getSanitationColor 65 = "#22d3ee" ∧
    getSanitationOpacity 0 ≤ getSanitationOpacity 100 ∧
    7 / 20 ≤ getSanitationOpacity 50 ∧ getSanitationOpacity 50 ≤ 3 / 4 :=
  ⟨(C9_sanitation_amended.1 90).1 (by norm_num),
   (C9_sanitation_amended.1 65).2.1 (by norm_num) (by norm_num),
   C9_sanitation_amended.2.2.1 0 100 (by norm_num),
   (C9_sanitation_amended.2.2.2.2.2.2 50 (by norm_num) (by norm_num)).1,
   (C9_sanitation_amended.2.2.2.2.2.2 50 (by norm_num) (by norm_num)).2⟩

/-! ## Multi-pathogen heatmap (`src/components/map.js`, `setMapHeatmap`) -/

/-- One entry of the per-disease capital data consumed by
`setMapHeatmap`: the capital's UF and its latest reading. -/
structure HeatCapital where
  uf : String
  latest : Option SeriesPoint
deriving DecidableEq, Repr

/-- The `allData` object passed to `setMapHeatmap`:
`{ dengue: [capitalData], chikungunya: [...], zika: [...] }`, each entry
possibly absent. -/
structure AllDiseaseData where
  dengue : Option (List HeatCapital)
  chikungunya : Option (List HeatCapital)
  zika : Option (List HeatCapital)
deriving DecidableEq, Repr

/-- One step of the global-max scan (map.js lines 280–282):
`if (d.latest?.casos > globalMax) globalMax = d.latest.casos` — absent
`latest` or `casos` compares false and leaves the maximum unchanged. -/
def bumpMax (gm : Nat) (c : HeatCapital) : Nat :=
  match c.latest with
  | none => gm
  | some p =>
      match p.casos with
      | none => gm
      | some k => if gm < k then k else gm

/-- The scan of one disease's data (skipped entirely when absent:
`if (!data) return`). -/
def diseaseMax (gm : Nat) (o : Option (List HeatCapital)) : Nat :=
  match o with
  | none => gm
  | some data => data.foldl bumpMax gm

/-- `globalMax` of `setMapHeatmap` (map.js lines 276–283): initialized
to `1` and raised by the observed case counts of the three diseases. -/
def globalMaxCases (a : AllDiseaseData) : Nat :=
  diseaseMax (diseaseMax (diseaseMax 1 a.dengue) a.chikungunya) a.zika

/-- The state-centroid table `UF_CENTROIDS` (map.js lines 46–56). -/
def UF_CENTROIDS : List (String × ℚ × ℚ) :=
  [("AC", -9.02, -70.81), ("AL", -9.57, -36.78), ("AM", -4.38, -65.00),
   ("AP", 1.41, -51.77), ("BA", -12.96, -41.70), ("CE", -5.50, -39.32),
   ("DF", -15.83, -47.86), ("ES", -19.57, -40.67), ("GO", -15.83, -49.62),
   ("MA", -5.42, -45.44), ("MG", -18.51, -44.56), ("MS", -20.51, -54.54),
   ("MT", -12.98, -56.09), ("PA", -3.41, -52.29), ("PB", -7.24, -36.78),
   ("PE", -8.38, -37.86), ("PI", -7.72, -42.73), ("PR", -25.09, -51.50),
   ("RJ", -22.33, -42.70), ("RN", -5.81, -36.59), ("RO", -10.90, -62.00),
   ("RR", 2.05, -61.38), ("RS", -30.17, -53.50), ("SC", -27.45, -50.95),
   ("SE", -10.57, -37.45), ("SP", -22.28, -48.56), ("TO", -10.17, -48.33)]

/-- Centroid lookup `UF_CENTROIDS[cap.uf]`. -/
def lookupCentroid (uf : String) : Option (ℚ × ℚ) :=
  (UF_CENTROIDS.find? (fun e => e.1 == uf)).map (fun e => e.2)

/-- One rendered heat blob.  The code draws a circle of radius
`40 + sqrt(casos / globalMax) * 160`; the square root is kept symbolic
here by recording the radicand `intensitySq = casos / globalMax`. -/
structure HeatBlob where
  uf : String
  center : ℚ × ℚ
  intensitySq : ℚ
deriving DecidableEq, Repr

/-- The blob produced for one capital (map.js lines 326–338): the early
returns `if (!cap.latest || !cap.latest.casos) return` and
`if (!centroid) return` yield no blob for a null latest, a missing or
zero case count, or an unknown UF. -/
def heatBlob (gm : Nat) (c : HeatCapital) : Option HeatBlob :=
  match c.latest with
  | none => none
  | some p =>
      match p.casos with
      | none => none
      | some k =>
          if k = 0 then none
          else
            match lookupCentroid c.uf with
            | none => none
            | some ctr => some { uf := c.uf, center := ctr, intensitySq := (k : ℚ) / (gm : ℚ) }

/-- The blobs of one disease's group. -/
def heatBlobs (gm : Nat) (data : List HeatCapital) : List HeatBlob :=
  data.filterMap (heatBlob gm)

theorem foldl_bumpMax_le (l : List HeatCapital) : ∀ gm : Nat, gm ≤ l.foldl bumpMax gm := by
  induction l with
  | nil => intro gm; exact Nat.le_refl gm
  | cons c t ih =>
      intro gm
      have h1 : gm ≤ bumpMax gm c := by
        unfold bumpMax
        split
        · exact Nat.le_refl gm
        · split
          · exact Nat.le_refl gm
          · split <;> omega
      exact Nat.le_trans h1 (ih (bumpMax gm c))

theorem diseaseMax_le (o : Option (List HeatCapital)) (gm : Nat) : gm ≤ diseaseMax gm o := by
  cases o with
  | none => exact Nat.le_refl gm
  | some data => exact foldl_bumpMax_le data gm

/-- C10.  The heatmap's normalizing denominator is at least `1` for
every input (it starts at `1` and is only ever raised), so the intensity
`sqrt(casos / globalMax)` never divides by zero; and a capital whose
latest reading is null, or whose latest case count is missing or `0`,
produces no heat blob at all. -/
theorem C10_heatmap_safety :
    (∀ a : AllDiseaseData, 1 ≤ globalMaxCases a ∧ ((globalMaxCases a : ℚ) ≠ 0)) ∧
    (∀ (gm : Nat) (c : HeatCapital),
      (c.latest = none ∨ ∃ p, c.latest = some p ∧ p.casos.getD 0 = 0) →
      heatBlob gm c = none) := by
  constructor
  · intro a
    have h1 : 1 ≤ globalMaxCases a := by
      unfold globalMaxCases
      calc 1 ≤ diseaseMax 1 a.dengue := diseaseMax_le a.dengue 1
        _ ≤ diseaseMax (diseaseMax 1 a.dengue) a.chikungunya := diseaseMax_le _ _
        _ ≤ _ := diseaseMax_le _ _
    refine ⟨h1, ?_⟩
    exact_mod_cast Nat.one_le_iff_ne_zero.mp h1
  · intro gm c h
    rcases h with hnone | ⟨p, hp, hz⟩
    · simp [heatBlob, hnone]
    · cases hc : p.casos with
      | none => simp [heatBlob, hp, hc]
      | some k =>
          rw [hc] at hz
          simp only [Option.getD_some] at hz
          subst hz
          simp [heatBlob, hp, hc]

/-- C10 witness: the heatmap safety theorem applied to a concrete
all-null input and a concrete null-latest capital. -/
theorem C10_heatmap_safety_witness :
    1 ≤ globalMaxCases ⟨none, none, none⟩ ∧
    heatBlob 5 ⟨"SP", none⟩ = none :=
  ⟨(C10_heatmap_safety.1 ⟨none, none, none⟩).1,
   C10_heatmap_safety.2 5 ⟨"SP", none⟩ (Or.inl rfl)⟩

/-! ## Data access layer (`src/services/api.js`)

`fetchDiseaseData` wraps a network fetch of one location's series and
sorts it by epidemiological week; `fetchNationalOverview` batches it
over the 27 capitals with a fallback-year search;
`fetchBulkMunicipioAlerts` batches it over a list of geocodes and keeps
only non-null latest points.  The network is abstracted as a function
from the request parameters to `Except Unit (List SeriesPoint)`: an
`error` models a failed fetch (non-2xx or transport failure). -/

/-- Abstract upstream fetch: geocode, disease, `ew_start`, `ew_end`,
year (`ey_start = ey_end` in every call site) to a fallible series. -/
def FetchFn : Type :=
  Nat → String → Nat → Nat → Int → Except Unit (List SeriesPoint)

/-- `fetchDiseaseData` (api.js lines 50–62), modulo the cache: perform
the fetch and sort the rows by `SE` (`data.sort((a, b) => a.SE - b.SE)`,
a stable sort on the week). -/
def fetchDiseaseData (f : FetchFn) (geocode : Nat) (disease : String)
    (ewStart ewEnd : Nat) (year : Int) : Except Unit (List SeriesPoint) :=
  (f geocode disease ewStart ewEnd year).map
    (fun data => data.mergeSort (fun a b => a.SE ≤ b.SE))

/-- The 27 Brazilian state capitals of `fetchNationalOverview`
(api.js lines 70–98). -/
def capitals : List Capital :=
  [⟨"São Paulo", 3550308, "SP"⟩, ⟨"Rio de Janeiro", 3304557, "RJ"⟩,
   ⟨"Belo Horizonte", 3106200, "MG"⟩, ⟨"Salvador", 2927408, "BA"⟩,
   ⟨"Brasília", 5300108, "DF"⟩, ⟨"Fortaleza", 2304400, "CE"⟩,
   ⟨"Manaus", 1302603, "AM"⟩, ⟨"Curitiba", 4106902, "PR"⟩,
   ⟨"Recife", 2611606, "PE"⟩, ⟨"Goiânia", 5208707, "GO"⟩,
   ⟨"Belém", 1501402, "PA"⟩, ⟨"Porto Alegre", 4314902, "RS"⟩,
   ⟨"São Luís", 2111300, "MA"⟩, ⟨"Maceió", 2704302, "AL"⟩,
   ⟨"Campo Grande", 5002704, "MS"⟩, ⟨"Natal", 2408102, "RN"⟩,
   ⟨"Teresina", 2211001, "PI"⟩, ⟨"João Pessoa", 2507507, "PB"⟩,
   ⟨"Aracaju", 2800308, "SE"⟩, ⟨"Cuiabá", 5103403, "MT"⟩,
   ⟨"Florianópolis", 4205407, "SC"⟩, ⟨"Vitória", 3205309, "ES"⟩,
   ⟨"Porto Velho", 1100205, "RO"⟩, ⟨"Macapá", 1600303, "AP"⟩,
   ⟨"Rio Branco", 1200401, "AC"⟩, ⟨"Boa Vista", 1400100, "RR"⟩,
   ⟨"Palmas", 1721000, "TO"⟩]

/-- The degraded summary produced when a capital's fetch throws:
`{ ...cap, data: [], latest: null, dataYear: year }`. -/
def degradedSummary (cap : Capital) (year : Int) : Summary :=
  { name := cap.name, geocode := cap.geocode, uf := cap.uf,
    data := [], latest := none, dataYear := year }

/-- `fetchForYear` (api.js lines 108–121): fetch every capital for one
year; a per-capital failure is caught by the inner `try/catch` and
becomes the degraded summary, so every promise fulfills and
`Promise.allSettled` + the `fulfilled` filter return one summary per
capital.  `latest` is the last element of the sorted series, `null`
when the series is empty. -/
def fetchForYear (f : FetchFn) (disease : String) (year : Int)
    (ewStart ewEnd : Nat) : List Summary :=
  capitals.map (fun cap =>
    match fetchDiseaseData f cap.geocode disease ewStart ewEnd year with
    | Except.ok data =>
        { name := cap.name, geocode := cap.geocode, uf := cap.uf,
          data := data, latest := data.getLast?, dataYear := year }
    | Except.error _ => degradedSummary cap year)

/-- `data.some(d => d.latest !== null)` of `fetchNationalOverview`. -/
def hasData (l : List Summary) : Bool :=
  l.any (fun d => d.latest.isSome)

/-- The fallback loop of `fetchNationalOverview` (api.js lines
128–134): walk the prior years in order, fetching the full 1–52 week
range; stop at the first year with data; when none has data the last
fetched result is kept.  The second component records the years
fetched, in order. -/
def tryFallbackYears (f : FetchFn) (disease : String) :
    List Int → List Summary → List Summary × List Int
  | [], prev => (prev, [])
  | y :: ys, _prev =>
      let d := fetchForYear f disease y 1 52
      if hasData d then (d, [y])
      else
        let r := tryFallbackYears f disease ys d
        (r.1, y :: r.2)

/-- `fetchNationalOverview` (api.js lines 66–138), modulo the cache:
compute the trailing window `[max(1, currentEW - 4), currentEW]`, fetch
the current year, and if no capital has a non-null latest fall back to
`currentYear - 1`, `currentYear - 2`, `currentYear - 3` over the full
1–52 range, stopping at the first year with data.  The second component
records the years for which `fetchForYear` ran, in order. -/
def fetchNationalOverview (f : FetchFn) (disease : String)
    (currentYear : Int) (currentEW : Nat) : List Summary × List Int :=
  let startEW := max 1 (currentEW - 4)
  let data0 := fetchForYear f disease currentYear startEW currentEW
  if hasData data0 then (data0, [currentYear])
  else
    let r := tryFallbackYears f disease
      [currentYear - 1, currentYear - 2, currentYear - 3] data0
    (r.1, currentYear :: r.2)

/-- `fetchBulkMunicipioAlerts` (api.js lines 183–214), modulo the
date computation: fetch each geocode's series over the given window; a
failure is caught and becomes `{ geocode, data: [], latest: null }`;
the alert map keeps only entries whose `latest` is truthy (non-null),
so a failed or empty geocode is simply absent. -/
def fetchBulkMunicipioAlerts (f : FetchFn) (geocodes : List Nat)
    (disease : String) (startEW currentEW : Nat) (currentYear : Int) :
    List (Nat × SeriesPoint) :=
  let results := geocodes.map (fun g =>
    match fetchDiseaseData f g disease startEW currentEW currentYear with
    | Except.ok data => (g, data.getLast?)
    | Except.error _ => ((g, none) : Nat × Option SeriesPoint))
  results.filterMap (fun r =>
    match r.2 with
    | some p => some (r.1, p)
    | none => none)

/-- Membership in `fetchForYear` fixes `dataYear` to the fetched year. -/
theorem fetchForYear_dataYear (f : FetchFn) (disease : String) (year : Int)
    (ewStart ewEnd : Nat) :
    ∀ s ∈ fetchForYear f disease year ewStart ewEnd, s.dataYear = year := by
  intro s hs
  rw [fetchForYear, List.mem_map] at hs
  obtain ⟨cap, _, hcap⟩ := hs
  subst hcap
  cases fetchDiseaseData f cap.geocode disease ewStart ewEnd year <;> rfl

/-- C7.  Batched per-location fetches tolerate individual failures: for
any fetch function, `fetchForYear` returns exactly one summary per
capital (the batch never rejects), a capital whose fetch fails
contributes the degraded `{data: [], latest: null}` summary, and in
`fetchBulkMunicipioAlerts` a geocode whose fetch fails is simply absent
from the returned alert map. -/
theorem C7_batch_degraded :
    (∀ (f : FetchFn) (disease : String) (year : Int) (a b : Nat),
      (fetchForYear f disease year a b).length = capitals.length) ∧
    (∀ (f : FetchFn) (disease : String) (year : Int) (a b : Nat),
      ∀ cap ∈ capitals, ∀ e : Unit,
        fetchDiseaseData f cap.geocode disease a b year = Except.error e →
        degradedSummary cap year ∈ fetchForYear f disease year a b) ∧
    (∀ (f : FetchFn) (gs : List Nat) (disease : String) (a b : Nat) (year : Int),
      ∀ g ∈ gs, ∀ e : Unit,
        fetchDiseaseData f g disease a b year = Except.error e →
        ∀ p : SeriesPoint,
          (g, p) ∉ fetchBulkMunicipioAlerts f gs disease a b year) := by
  refine ⟨fun f disease year a b => ?_, fun f disease year a b cap hcap e he => ?_,
    fun f gs disease a b year g hg e he p hp => ?_⟩
  · rw [fetchForYear, List.length_map]
  · rw [fetchForYear, List.mem_map]
    refine ⟨cap, hcap, ?_⟩
    rw [he]
  · rw [fetchBulkMunicipioAlerts, List.mem_filterMap] at hp
    obtain ⟨r, hr, hval⟩ := hp
    rw [List.mem_map] at hr
    obtain ⟨g', _, hg'⟩ := hr
    cases hfd : fetchDiseaseData f g' disease a b year with
    | error u =>
        rw [hfd] at hg'
        subst hg'
        simp at hval
    | ok data =>
        rw [hfd] at hg'
        subst hg'
        dsimp only at hval
        cases hlast : data.getLast? with
        | none => rw [hlast] at hval; simp at hval
        | some q =>
            rw [hlast] at hval
            simp only [Option.some.injEq, Prod.mk.injEq] at hval
            obtain ⟨h1, _⟩ := hval
            subst h1
            rw [hfd] at he
            cases he

/-- A fetch function that fails for the São Paulo geocode and returns an
empty series everywhere else. -/
def cexFetchErr : FetchFn :=
  fun g _ _ _ _ => if g = 3550308 then Except.error () else Except.ok []

/-- A concrete series point for witnesses and counterexamples. -/
def cexPoint : SeriesPoint :=
  ⟨202201, some 10, none, none, some 10, 2, none, none⟩

/-- C7 witness: the batch-degradation theorem applied to `cexFetchErr`,
whose São Paulo fetch fails. -/
theorem C7_batch_degraded_witness :
    (fetchForYear cexFetchErr "dengue" 2025 1 52).length = capitals.length ∧
    degradedSummary ⟨"São Paulo", 3550308, "SP"⟩ 2025 ∈
      fetchForYear cexFetchErr "dengue" 2025 1 52 ∧
    (3550308, cexPoint) ∉
      fetchBulkMunicipioAlerts cexFetchErr [3550308] "dengue" 1 52 2025 :=
  ⟨C7_batch_degraded.1 cexFetchErr "dengue" 2025 1 52,
   C7_batch_degraded.2.1 cexFetchErr "dengue" 2025 1 52 ⟨"São Paulo", 3550308, "SP"⟩
     (by simp [capitals]) () rfl,
   C7_batch_degraded.2.2 cexFetchErr [3550308] "dengue" 1 52 2025 3550308
     (by simp) () rfl cexPoint⟩

/-- A fetch function with data only at year 2022: every year's fetch
succeeds, but only 2022 returns a nonempty series. -/
def cexFetch2022 : FetchFn :=
  fun _ _ _ _ y => if y = 2022 then Except.ok [cexPoint] else Except.ok []

/-- C3, counterexample.  The claim says `fetchNationalOverview` tries
exactly the years `[currentYear, currentYear-1, currentYear-2]`.  With
current year 2025 and data present only three years back, the code also
fetches 2022 (`for (let y = currentYear - 1; y >= currentYear - 3; y--)`
walks three prior years) and returns its data. -/
theorem C3_fallback_years_counterexample :
    (fetchNationalOverview cexFetch2022 "zika" 2025 20).2 = [2025, 2024, 2023, 2022] ∧
    ([2025, 2024, 2023, 2022] : List Int) ≠ [2025, 2024, 2023] ∧
    (fetchNationalOverview cexFetch2022 "zika" 2025 20).1.map Summary.dataYear =
      List.replicate 27 2022 := by
  refine ⟨?_, by decide, ?_⟩ <;>
    simp [fetchNationalOverview, tryFallbackYears, fetchForYear, fetchDiseaseData,
      cexFetch2022, hasData, capitals, degradedSummary, List.replicate, Except.map,
      List.mergeSort_nil, List.mergeSort_singleton]

/-- C3, amended.  When the trailing-window fetch of the current year
yields no location with a non-null latest point,
`fetchNationalOverview` retries prior years over the full 1–52 week
range, trying exactly the years `[currentYear, currentYear-1,
currentYear-2, currentYear-3]` in that order and stopping at the first
year for which at least one location has a non-null latest (keeping the
last — empty — result when all four fail); every returned summary's
`dataYear` equals the last year actually fetched. -/
theorem C3_fallback_amended :
    ∀ (f : FetchFn) (disease : String) (cy : Int) (cew : Nat),
      (hasData (fetchForYear f disease cy (max 1 (cew - 4)) cew) = true →
        fetchNationalOverview f disease cy cew =
          (fetchForYear f disease cy (max 1 (cew - 4)) cew, [cy])) ∧
      (hasData (fetchForYear f disease cy (max 1 (cew - 4)) cew) = false →
        hasData (fetchForYear f disease (cy - 1) 1 52) = true →
        fetchNationalOverview f disease cy cew =
          (fetchForYear f disease (cy - 1) 1 52, [cy, cy - 1])) ∧
      (hasData (fetchForYear f disease cy (max 1 (cew - 4)) cew) = false →
        hasData (fetchForYear f disease (cy - 1) 1 52) = false →
        hasData (fetchForYear f disease (cy - 2) 1 52) = true →
        fetchNationalOverview f disease cy cew =
          (fetchForYear f disease (cy - 2) 1 52, [cy, cy - 1, cy - 2])) ∧
      (hasData (fetchForYear f disease cy (max 1 (cew - 4)) cew) = false →
        hasData (fetchForYear f disease (cy - 1) 1 52) = false →
        hasData (fetchForYear f disease (cy - 2) 1 52) = false →
        fetchNationalOverview f disease cy cew =
          (fetchForYear f disease (cy - 3) 1 52, [cy, cy - 1, cy - 2, cy - 3])) ∧
      (∀ s ∈ (fetchNationalOverview f disease cy cew).1,
        ∃ y : Int, (fetchNationalOverview f disease cy cew).2.getLast? = some y ∧
          s.dataYear = y) := by
  intro f disease cy cew
  refine ⟨fun h0 => ?_, fun h0 h1 => ?_, fun h0 h1 h2 => ?_, fun h0 h1 h2 => ?_, ?_⟩
  · simp [fetchNationalOverview, h0]
  · simp [fetchNationalOverview, tryFallbackYears, h0, h1]
  · simp [fetchNationalOverview, tryFallbackYears, h0, h1, h2]
  · by_cases h3 : hasData (fetchForYear f disease (cy - 3) 1 52) <;>
      simp [fetchNationalOverview, tryFallbackYears, h0, h1, h2, h3]
  · by_cases h0 : hasData (fetchForYear f disease cy (max 1 (cew - 4)) cew) <;>
      by_cases h1 : hasData (fetchForYear f disease (cy - 1) 1 52) <;>
      by_cases h2 : hasData (fetchForYear f disease (cy - 2) 1 52) <;>
      by_cases h3 : hasData (fetchForYear f disease (cy - 3) 1 52) <;>
      simp [fetchNationalOverview, tryFallbackYears, h0, h1, h2, h3] <;>
      intro s hs <;>
      exact fetchForYear_dataYear f disease _ _ _ s hs

/-- C3 witness: the amended fallback theorem applied to `cexFetch2022`,
where the first three years are empty and 2022 has data. -/
theorem C3_fallback_amended_witness :
    fetchNationalOverview cexFetch2022 "zika" 2025 20 =
      (fetchForYear cexFetch2022 "zika" 2022 1 52, [2025, 2024, 2023, 2022]) :=
  by
    have h := (C3_fallback_amended cexFetch2022 "zika" 2025 20).2.2.2.1
    have e0 : hasData (fetchForYear cexFetch2022 "zika" 2025 (max 1 (20 - 4)) 20) = false := by
      simp [fetchForYear, fetchDiseaseData, cexFetch2022, hasData, capitals, Except.map,
        List.mergeSort_nil]
    have e1 : hasData (fetchForYear cexFetch2022 "zika" (2025 - 1) 1 52) = false := by
      simp [fetchForYear, fetchDiseaseData, cexFetch2022, hasData, capitals, Except.map,
        List.mergeSort_nil]
    have e2 : hasData (fetchForYear cexFetch2022 "zika" (2025 - 2) 1 52) = false := by
      simp [fetchForYear, fetchDiseaseData, cexFetch2022, hasData, capitals, Except.map,
        List.mergeSort_nil]
    have := h e0 e1 e2
    norm_num at this ⊢
    exact this

/-! ## Memoized fetch and concurrency (`cachedFetch`, api.js lines 13–18)

`cachedFetch` runs on the single-threaded event loop; its only
suspension point is `await fetcher()`.  A call therefore consists of two
atomic phases: the synchronous prefix up to the `await` (check the
cache; on a miss, issue the underlying fetch) and the synchronous
completion after the `await` (store the result in the cache).  A
schedule is the interleaving of these phases across calls.  Crucially,
the code writes to `cache` only **after** the await — there is no
in-flight marker of any kind. -/

/-- One atomic phase of a `cachedFetch` call: `start c k` is the
synchronous prefix of call `c` for key `k` (`if (cache.has(key)) return
cache.get(key); const data = await fetcher()` — on a cache miss the
underlying fetch is issued here); `finish c k v` is the resumption after
the awaited fetch resolves with `v` (`cache.set(key, data)`). -/
inductive FetchPhase
  | start (c : Nat) (k : Nat)
  | finish (c : Nat) (k : Nat) (v : Nat)
deriving DecidableEq, Repr

/-- The shared state: the memoization `cache` (an association list), the
set of calls whose underlying fetch is outstanding (`fetching`, only
bookkeeping for matching `finish` to a real miss), and the number of
underlying fetches issued so far. -/
structure CacheState where
  cache : List (Nat × Nat)
  fetching : List Nat
  fetchCount : Nat
deriving DecidableEq, Repr

/-- `cache.get(key)` on the association list. -/
def lookupCache (m : List (Nat × Nat)) (k : Nat) : Option Nat :=
  (m.find? (fun e => e.1 == k)).map (fun e => e.2)

/-- One phase of `cachedFetch`: on `start`, a cache hit returns
immediately and changes nothing, a miss issues the underlying fetch; on
`finish`, a call that issued a fetch stores its result in the cache. -/
def cachedFetchStep (s : CacheState) (a : FetchPhase) : CacheState :=
  match a with
  | FetchPhase.start c k =>
      if (lookupCache s.cache k).isSome then s
      else { s with fetching := c :: s.fetching, fetchCount := s.fetchCount + 1 }
  | FetchPhase.finish c k v =>
      if s.fetching.contains c then
        { cache := (k, v) :: s.cache, fetching := s.fetching.erase c,
          fetchCount := s.fetchCount }
      else s

/-- Run a schedule of phases from the empty cache. -/
def runCachedFetch (sched : List FetchPhase) : CacheState :=
  sched.foldl cachedFetchStep ⟨[], [], 0⟩

/-- C4, counterexample.  The claim says two calls with the same cache
key, the second beginning while the first's fetch is outstanding, never
issue the fetch twice.  In the schedule where call 1 starts for key 7
after call 0 started but before call 0's fetch resolved, both calls miss
the cache (nothing is written until `finish`), so the underlying fetch
is issued twice, not once. -/
theorem C4_concurrent_fetch_counterexample :
    (runCachedFetch
      [FetchPhase.start 0 7, FetchPhase.start 1 7,
       FetchPhase.finish 0 7 42, FetchPhase.finish 1 7 42]).fetchCount = 2 ∧
    (2 : Nat) ≠ 1 := by
  refine ⟨by decide, by decide⟩

/-- C4, amended.  The cache de-duplicates only completed requests: a
`start` for a key already stored in the cache issues no fetch and leaves
the state unchanged (so a call beginning after an identical call has
completed reuses the cached value, and the fetch runs once); but the
cache is written only on completion — there is no in-flight marker — so
two calls for the same key that overlap both miss and both issue the
underlying fetch. -/
theorem C4_cache_amended :
    (∀ (s : CacheState) (c k : Nat),
      (lookupCache s.cache k).isSome = true →
      cachedFetchStep s (FetchPhase.start c k) = s) ∧
    (∀ c₁ c₂ k v : Nat,
      (runCachedFetch
        [FetchPhase.start c₁ k, FetchPhase.finish c₁ k v,
         FetchPhase.start c₂ k]).fetchCount = 1) ∧
    (∀ (s : CacheState) (c₁ c₂ k : Nat),
      lookupCache s.cache k = none →
      (cachedFetchStep (cachedFetchStep s (FetchPhase.start c₁ k))
        (FetchPhase.start c₂ k)).fetchCount = s.fetchCount + 2) := by
  refine ⟨fun s c k h => ?_, fun c₁ c₂ k v => ?_, fun s c₁ c₂ k h => ?_⟩
  · simp [cachedFetchStep, h]
  · simp [runCachedFetch, cachedFetchStep, lookupCache]
  · simp [cachedFetchStep, h]

/-- C4 witness: the amended cache theorem applied to a concrete state
holding key 7 and to a concrete sequential schedule. -/
theorem C4_cache_amended_witness :
    cachedFetchStep ⟨[(7, 42)], [], 1⟩ (FetchPhase.start 5 7) = ⟨[(7, 42)], [], 1⟩ ∧
    (runCachedFetch
      [FetchPhase.start 0 7, FetchPhase.finish 0 7 42,
       FetchPhase.start 1 7]).fetchCount = 1 ∧
    (cachedFetchStep (cachedFetchStep ⟨[], [], 0⟩ (FetchPhase.start 0 7))
      (FetchPhase.start 1 7)).fetchCount = 0 + 2 :=
  ⟨C4_cache_amended.1 ⟨[(7, 42)], [], 1⟩ 5 7 (by decide),
   C4_cache_amended.2.1 0 1 7 42,
   C4_cache_amended.2.2 ⟨[], [], 0⟩ 0 1 7 (by decide)⟩

/-! ## Monthly bucketing for the correlation chart
(`src/components/charts.js`) -/

/-- `weekToMonth(week)` (charts.js lines 47–60): the fixed non-uniform
week-to-month table. -/
def weekToMonth (week : Nat) : Nat :=
  if week ≤ 4 then 0
  else if week ≤ 9 then 1
  else if week ≤ 13 then 2
  else if week ≤ 17 then 3
  else if week ≤ 22 then 4
  else if week ≤ 26 then 5
  else if week ≤ 30 then 6
  else if week ≤ 35 then 7
  else if week ≤ 39 then 8
  else if week ≤ 43 then 9
  else if week ≤ 48 then 10
  else 11

/-- Modelled from the spec: the week-to-month table as the spec states
it (weeks 1–4→Jan, 5–9→Feb, 10–13→Mar, 14–17→Apr, 18–22→May, 23–26→Jun,
27–30→Jul, 31–35→Aug, 36–39→Sep, 40–43→Oct, 44–48→Nov, 49–52→Dec),
compared against the code's `weekToMonth` on the 1–52 domain. -/
def weekToMonthSpec (week : Nat) : Nat :=
  if 1 ≤ week ∧ week ≤ 4 then 0
  else if 5 ≤ week ∧ week ≤ 9 then 1
  else if 10 ≤ week ∧ week ≤ 13 then 2
  else if 14 ≤ week ∧ week ≤ 17 then 3
  else if 18 ≤ week ∧ week ≤ 22 then 4
  else if 23 ≤ week ∧ week ≤ 26 then 5
  else if 27 ≤ week ∧ week ≤ 30 then 6
  else if 31 ≤ week ∧ week ≤ 35 then 7
  else if 36 ≤ week ∧ week ≤ 39 then 8
  else if 40 ≤ week ∧ week ≤ 43 then 9
  else if 44 ≤ week ∧ week ≤ 48 then 10
  else 11

/-- The per-month accumulator of `renderCorrelationChart` (charts.js
lines 91–95): `{ casos: 0, tempSum: 0, tempCount: 0, umidSum: 0,
umidCount: 0 }`. -/
structure MonthAcc where
  casos : Nat
  tempSum : ℚ
  tempCount : Nat
  umidSum : ℚ
  umidCount : Nat
deriving DecidableEq, Repr

/-- One iteration of the `data.forEach` loop (charts.js lines 97–102):
bucket the point into month `weekToMonth(d.SE % 100)`, add
`d.casos || 0` to the case sum, and accumulate present climate readings
into the running sums and counts.  The 12-slot array is modelled as a
function from the month index. -/
def monthlyStep (acc : Nat → MonthAcc) (d : SeriesPoint) : Nat → MonthAcc :=
  let m := weekToMonth (d.SE % 100)
  fun i =>
    if i = m then
      let a := acc m
      let a := { a with casos := a.casos + d.casos.getD 0 }
      let a := match d.tempmed with
        | some t => { a with tempSum := a.tempSum + t, tempCount := a.tempCount + 1 }
        | none => a
      match d.umidmed with
      | some u => { a with umidSum := a.umidSum + u, umidCount := a.umidCount + 1 }
      | none => a
    else acc i

/-- The `monthlyData` accumulation of `renderCorrelationChart`. -/
def monthlyData (data : List SeriesPoint) : Nat → MonthAcc :=
  data.foldl monthlyStep (fun _ => ⟨0, 0, 0, 0, 0⟩)

/-- `casosArray` (charts.js line 104): the monthly case sums. -/
def casosArray (data : List SeriesPoint) (m : Nat) : Nat :=
  (monthlyData data m).casos

/-- `tempArray` (charts.js line 105): the monthly mean temperature,
`null` when no point contributed a reading. -/
def tempArray (data : List SeriesPoint) (m : Nat) : Option ℚ :=
  let a := monthlyData data m
  if 0 < a.tempCount then some (a.tempSum / (a.tempCount : ℚ)) else none

/-- `umidArray` (charts.js line 106): the monthly mean humidity, `null`
when no point contributed a reading. -/
def umidArray (data : List SeriesPoint) (m : Nat) : Option ℚ :=
  let a := monthlyData data m
  if 0 < a.umidCount then some (a.umidSum / (a.umidCount : ℚ)) else none

/-- The points contributing to month `m`. -/
def pointsInMonth (data : List SeriesPoint) (m : Nat) : List SeriesPoint :=
  data.filter (fun d => weekToMonth (d.SE % 100) == m)

/-- The present temperature readings contributing to month `m`. -/
def tempVals (data : List SeriesPoint) (m : Nat) : List ℚ :=
  (pointsInMonth data m).filterMap (fun d => d.tempmed)

/-- The present humidity readings contributing to month `m`. -/
def umidVals (data : List SeriesPoint) (m : Nat) : List ℚ :=
  (pointsInMonth data m).filterMap (fun d => d.umidmed)

/-- Closed form of the monthly accumulation at every month index. -/
theorem monthlyData_closed (data : List SeriesPoint) :
    ∀ (acc : Nat → MonthAcc) (m : Nat),
      (data.foldl monthlyStep acc) m =
        { casos := (acc m).casos + ((pointsInMonth data m).map (fun d => d.casos.getD 0)).sum
          tempSum := (acc m).tempSum + (tempVals data m).sum
          tempCount := (acc m).tempCount + (tempVals data m).length
          umidSum := (acc m).umidSum + (umidVals data m).sum
          umidCount := (acc m).umidCount + (umidVals data m).length } := by
  induction data with
  | nil =>
      intro acc m
      simp [pointsInMonth, tempVals, umidVals]
  | cons d t ih =>
      intro acc m
      rw [List.foldl_cons, ih]
      obtain ⟨dSE, dcasos, dRt, dpinc, dnotif, dnivel, dtemp, dumid⟩ := d
      by_cases hm : weekToMonth (dSE % 100) = m
      · cases dtemp <;> cases dumid <;>
          simp [monthlyStep, hm, pointsInMonth, tempVals, umidVals,
            List.filter_cons, List.filterMap_cons,
            Nat.add_assoc, Nat.add_comm, Nat.add_left_comm,
            add_assoc, add_comm, add_left_comm]
      · simp [monthlyStep, hm, Ne.symm hm, pointsInMonth, tempVals, umidVals,
          List.filter_cons]

/-- C5.  The monthly bucketing of the correlation chart maps every week
in 1–52 through the fixed table (matching the spec's table exactly);
within each month, cases accumulate by sum over the contributing points
(missing case counts contribute 0), temperature and humidity by the
arithmetic mean of the present readings (sum and count tracked
separately and divided at the end), and a month with no contributing
reading yields `null`, never `0`, for each climate field. -/
theorem C5_month_bucketing :
    (∀ w : Nat, 1 ≤ w → w ≤ 52 → weekToMonth w = weekToMonthSpec w) ∧
    (∀ (data : List SeriesPoint) (m : Nat),
      casosArray data m = ((pointsInMonth data m).map (fun d => d.casos.getD 0)).sum ∧
      tempArray data m =
        (if tempVals data m = [] then none
         else some ((tempVals data m).sum / ((tempVals data m).length : ℚ))) ∧
      umidArray data m =
        (if umidVals data m = [] then none
         else some ((umidVals data m).sum / ((umidVals data m).length : ℚ)))) := by
  constructor
  · intro w h1 h52
    interval_cases w <;> rfl
  · intro data m
    have h := monthlyData_closed data (fun _ => ⟨0, 0, 0, 0, 0⟩) m
    refine ⟨?_, ?_, ?_⟩
    · rw [casosArray, monthlyData, h]
      simp
    · rw [tempArray, monthlyData, h]
      rcases htv : tempVals data m with _ | ⟨v, vs⟩
      · simp
      · simp
    · rw [umidArray, monthlyData, h]
      rcases huv : umidVals data m with _ | ⟨v, vs⟩
      · simp
      · simp

/-- C5 witness: the bucketing theorem applied to week 4 and week 5 (the
January/February boundary) and to a one-point series at week 1. -/
theorem C5_month_bucketing_witness :
    weekToMonth 4 = weekToMonthSpec 4 ∧
    weekToMonth 5 = weekToMonthSpec 5 ∧
    weekToMonth 52 = weekToMonthSpec 52 ∧
    casosArray [⟨202501, some 8, none, none, some 8, 1, none, none⟩] 0 =
      ((pointsInMonth [⟨202501, some 8, none, none, some 8, 1, none, none⟩] 0).map
        (fun d => d.casos.getD 0)).sum ∧
    tempArray [⟨202501, some 8, none, none, some 8, 1, none, none⟩] 3 =
      (if tempVals [⟨202501, some 8, none, none, some 8, 1, none, none⟩] 3 = [] then none
       else some ((tempVals [⟨202501, some 8, none, none, some 8, 1, none, none⟩] 3).sum /
         ((tempVals [⟨202501, some 8, none, none, some 8, 1, none, none⟩] 3).length : ℚ))) :=
  ⟨C5_month_bucketing.1 4 (by decide) (by decide),
   C5_month_bucketing.1 5 (by decide) (by decide),
   C5_month_bucketing.1 52 (by decide) (by decide),
   (C5_month_bucketing.2 [⟨202501, some 8, none, none, some 8, 1, none, none⟩] 0).1,
   (C5_month_bucketing.2 [⟨202501, some 8, none, none, some 8, 1, none, none⟩] 3).2.1⟩

end VSB
